import Mathlib

/-!
# Verification of `RpcClient` (src/zed/src/rpc_client.rs)

Shallow embedding of the client-side RPC multiplexer:

* the Correlation Table `response_channels : HashMap<i32, (mpsc::Sender<Variant>, bool)>`
  is modelled as an association list from `Int` (request id, `i32` in the source;
  overflow is out of scope per the design) to `Entry`;
* a channel sender `mpsc::Sender<Variant>` is modelled by the identity `chan : Nat`
  of the receiver it is connected to; `tx.send(v).await.is_ok()` succeeds exactly
  when the receiver is still alive, captured by a predicate `alive : Nat → Bool`
  fixed over the scenario under consideration;
* payload variants are modelled as opaque tokens (`Nat`);
* the body of the spawned reader loop (`RpcClient::new`) becomes the step function
  `processMessage` plus the loop driver `runReader` over a list of race outcomes
  (each iteration's `message.race(&mut client_dropped)` resolution);
* the receive side of `RpcClient::request` (lines 104–110) becomes `requestReceive`.
-/

/-- A Correlation Table entry: the pair `(mpsc::Sender<Variant>, bool)` stored in
`response_channels`. `chan` identifies the caller's receiver the sender is connected
to; `oneshot` is the boolean flag (`true` for `request`, `false` for `subscribe`). -/
structure Entry where
  chan : Nat
  oneshot : Bool
  deriving DecidableEq, Repr

/-- The Correlation Table `response_channels`: request id → entry. -/
abbrev Table := List (Int × Entry)

/-- An inbound `proto::FromServer` message: optional `request_id`, optional `variant`. -/
structure FromServer where
  request_id : Option Int
  variant : Option Nat
  deriving DecidableEq, Repr

/-- First entry stored under key `id`, i.e. `HashMap` lookup (keys are unique in
any table reachable from the source's operations). -/
def lookupEntry : Table → Int → Option Entry
  | [], _ => none
  | (k, e) :: rest, id => if k = id then some e else lookupEntry rest id

/-- Remove every binding of key `id` (agrees with `HashMap::remove` on the
duplicate-free tables the source maintains). -/
def eraseEntry : Table → Int → Table
  | [], _ => []
  | (k, e) :: rest, id =>
    if k = id then eraseEntry rest id else (k, e) :: eraseEntry rest id

/-- `response_channels.lock().remove(&id)`: the removed entry, and the table
without it. -/
def removeGet (t : Table) (id : Int) : Option Entry × Table :=
  (lookupEntry t id, eraseEntry t id)

/-- `response_channels.lock().insert(id, e)`. -/
def insertEntry (t : Table) (id : Int) (e : Entry) : Table :=
  (id, e) :: eraseEntry t id

/-- The two `log::warn!` calls in the reader loop. -/
inductive LogEvent where
  /-- `"received RPC response to unknown request id {}"` -/
  | unknownRequestId (id : Int)
  /-- `"received RPC message with no content"` -/
  | noContent
  deriving DecidableEq, Repr

/-- Outcome of one `Message::Message` arm of the reader loop. `delivered`
records the successful `tx.send(variant)` if one happened, as
`(request id, receiver channel, variant)`. -/
structure StepResult where
  table : Table
  logs : List LogEvent
  delivered : Option (Int × Nat × Nat)
  deriving DecidableEq, Repr

/-- The table state while a delivery is in flight: the entry for `id` has been
taken out by `remove` and any re-insertion has not yet happened (the `tx.send`
between them is an await point). -/
def midDeliveryTable (t : Table) (id : Int) : Table :=
  (removeGet t id).2

/-- Body of the reader loop's `Message::Message(message)` arm
(src/zed/src/rpc_client.rs lines 61–82):

* `if let Some(variant) = message.variant` — else log `noContent`;
* `if let Some(request_id) = message.request_id` — else fall through silently;
* `remove(&request_id)`; if an entry was found, `tx.send(variant)`:
  on success re-insert `(tx, false)` when `!oneshot`; on failure drop `tx`;
* if no entry was found, log `unknownRequestId`. -/
def processMessage (alive : Nat → Bool) (t : Table) (m : FromServer) : StepResult :=
  match m.variant with
  | some variant =>
    match m.request_id with
    | some request_id =>
      match removeGet t request_id with
      | (some e, t1) =>
        if alive e.chan then
          { table := if e.oneshot then t1
                     else insertEntry t1 request_id ⟨e.chan, false⟩
            logs := []
            delivered := some (request_id, e.chan, variant) }
        else
          { table := t1, logs := [], delivered := none }
      | (none, t1) =>
        { table := t1, logs := [LogEvent.unknownRequestId request_id]
          delivered := none }
    | none => { table := t, logs := [], delivered := none }
  | none => { table := t, logs := [LogEvent.noContent], delivered := none }

/-- Resolution of one iteration's
`message.race(&mut client_dropped).await?`. -/
inductive RaceOutcome where
  /-- `Message::Message(m)`: `read_message` produced `m`. -/
  | message (m : FromServer)
  /-- `read_message` failed; the `?` propagates the error out of the loop. -/
  | readError
  /-- `Message::ClientDropped`: `drop_rx` observed the sender's destruction. -/
  | clientDropped
  deriving DecidableEq, Repr

/-- How the reader loop ended (or that it is still looping). -/
inductive LoopResult where
  /-- `break Ok(())` on `ClientDropped`. -/
  | ok
  /-- an `Err` propagated by `?`. -/
  | err
  /-- the supplied race outcomes are exhausted and the loop is still reading. -/
  | running
  deriving DecidableEq, Repr

/-- Cumulative outcome of running the reader loop over a list of race outcomes. -/
structure RunResult where
  table : Table
  result : LoopResult
  logs : List LogEvent
  deliveries : List (Int × Nat × Nat)
  deriving DecidableEq, Repr

/-- The reader loop of `RpcClient::new`, driven by the per-iteration race
resolutions. -/
def runReader (alive : Nat → Bool) (t : Table) : List RaceOutcome → RunResult
  | [] => { table := t, result := .running, logs := [], deliveries := [] }
  | RaceOutcome.clientDropped :: _ =>
    { table := t, result := .ok, logs := [], deliveries := [] }
  | RaceOutcome.readError :: _ =>
    { table := t, result := .err, logs := [], deliveries := [] }
  | RaceOutcome.message m :: rest =>
    let r := processMessage alive t m
    let rr := runReader alive r.table rest
    { table := rr.table, result := rr.result, logs := r.logs ++ rr.logs
      deliveries := r.delivered.toList ++ rr.deliveries }

/-- How the loop ends depends only on the race outcomes, never on the table:
no inbound message can terminate the loop. -/
def loopResultOf : List RaceOutcome → LoopResult
  | [] => .running
  | RaceOutcome.clientDropped :: _ => .ok
  | RaceOutcome.readError :: _ => .err
  | RaceOutcome.message _ :: rest => loopResultOf rest

/-- Whether the reader task is still running. -/
def readerRunning : LoopResult → Bool
  | .running => true
  | _ => false

/-- The Correlation Table is kept alive by two `Arc` owners: the client handle's
`response_channels` field and the reader task's clone. It is freed only when
both are gone. -/
def tableAlive (clientAlive running : Bool) : Bool :=
  clientAlive || running

/-- A pending caller's receiver is closed exactly when its sender is gone: the
sender lives in the caller's table entry, so the receiver closes when the table
itself has been freed, or when the entry was removed (the reader drops a removed
`tx` unless it re-inserts it). Modelled from the ownership structure of
`RpcClient` (`response_channels: Arc<Mutex<HashMap<..>>>` field plus the clone
moved into the spawned task). -/
def receiverClosed (clientAlive : Bool) (r : RunResult) (id : Int) : Bool :=
  !(tableAlive clientAlive (readerRunning r.result)) || (lookupEntry r.table id).isNone

/-- Id allocation plus registration done by `RpcClient::request` before the
write: `next_message_id` is taken and incremented, a capacity-1 channel is
created and its sender inserted with the oneshot flag `true`. -/
def registerRequest (t : Table) (nextId : Int) (chan : Nat) : Table × Int :=
  (insertEntry t nextId ⟨chan, true⟩, nextId + 1)

/-- Registration done by `RpcClient::subscribe`: a capacity-256 channel's
sender is inserted with the oneshot flag `false`. -/
def registerSubscription (t : Table) (nextId : Int) (chan : Nat) : Table × Int :=
  (insertEntry t nextId ⟨chan, false⟩, nextId + 1)

/-- Outcome of the receive side of `RpcClient::request`. -/
inductive RequestOutcome where
  /-- decoded response returned to the caller -/
  | success (v : Nat)
  /-- `anyhow!("received response of the wrong t")` -/
  | protocolMismatch
  /-- the `.expect("response channel was unexpectedly dropped")` fired -/
  | panicked
  deriving DecidableEq, Repr

/-- Lines 104–110 of `RpcClient::request`: `rx.recv().await` yields
`received`; `.expect(..)` panics on `none`; otherwise
`T::Response::from_variant(response).ok_or_else(..)`. `fromVariant` is the
request type's `T::Response::from_variant`. -/
def requestReceive (fromVariant : Nat → Option Nat) (received : Option Nat) :
    RequestOutcome :=
  match received with
  | none => .panicked
  | some v =>
    match fromVariant v with
    | some r => .success r
    | none => .protocolMismatch

/-! ## Basic lemmas about the table operations -/

theorem lookupEntry_eraseEntry (t : Table) (id j : Int) :
    lookupEntry (eraseEntry t id) j = if j = id then none else lookupEntry t j := by
  induction t with
  | nil => simp [eraseEntry, lookupEntry]
  | cons p rest ih =>
    obtain ⟨k, e⟩ := p
    by_cases hk : k = id
    · by_cases hj : j = id
      · subst hj; simp [eraseEntry, lookupEntry, hk, ih]
      · have hkj : k ≠ j := fun h => hj (h.symm.trans hk)
        have hij : id ≠ j := fun h => hj h.symm
        simp [eraseEntry, lookupEntry, hk, hkj, hj, hij, ih]
    · by_cases hkj : k = j
      · have hj : j ≠ id := fun h => hk (hkj.trans h)
        simp [eraseEntry, lookupEntry, hk, hkj, hj]
      · simp [eraseEntry, lookupEntry, hk, hkj, ih]

theorem lookupEntry_insertEntry (t : Table) (id : Int) (e : Entry) (j : Int) :
    lookupEntry (insertEntry t id e) j =
      if j = id then some e else lookupEntry t j := by
  by_cases hj : j = id <;>
    simp [insertEntry, lookupEntry, lookupEntry_eraseEntry, hj]
  · intro h; exact absurd h.symm hj

theorem eraseEntry_of_lookup_none (t : Table) (id : Int)
    (h : lookupEntry t id = none) : eraseEntry t id = t := by
  induction t with
  | nil => rfl
  | cons p rest ih =>
    obtain ⟨k, e⟩ := p
    by_cases hk : k = id
    · simp [lookupEntry, hk] at h
    · simp [lookupEntry, hk] at h
      simp [eraseEntry, hk, ih h]

/-! ## Characterization of one reader step -/

/-- Table lookups after one reader step: only the message's own id can change,
and it survives (with the oneshot flag re-set to `false`) exactly when its entry
was multi-shot and the delivery succeeded. -/
theorem lookupEntry_processMessage (alive : Nat → Bool) (t : Table)
    (m : FromServer) (j : Int) :
    lookupEntry (processMessage alive t m).table j =
      (match m.variant, m.request_id with
      | some _, some i =>
        if j = i then
          (match lookupEntry t i with
          | some e =>
            if alive e.chan && !e.oneshot then some ⟨e.chan, false⟩ else none
          | none => none)
        else lookupEntry t j
      | _, _ => lookupEntry t j) := by
  cases hv : m.variant with
  | none => simp [processMessage, hv]
  | some v =>
    cases hr : m.request_id with
    | none => simp [processMessage, hv, hr]
    | some i =>
      cases hl : lookupEntry t i with
      | none =>
        simp [processMessage, hv, hr, removeGet, hl, lookupEntry_eraseEntry]
      | some e =>
        cases ha : alive e.chan with
        | false =>
          simp [processMessage, hv, hr, removeGet, hl, ha, lookupEntry_eraseEntry]
        | true =>
          cases ho : e.oneshot with
          | true =>
            simp [processMessage, hv, hr, removeGet, hl, ha, ho,
              lookupEntry_eraseEntry]
          | false =>
            by_cases hj : j = i <;>
              simp [processMessage, hv, hr, removeGet, hl, ha, ho, hj,
                lookupEntry_insertEntry, lookupEntry_eraseEntry]

/-- The delivery one reader step performs: exactly when the message carries a
payload and an id whose entry's receiver is alive. -/
theorem delivered_processMessage (alive : Nat → Bool) (t : Table)
    (m : FromServer) :
    (processMessage alive t m).delivered =
      (match m.variant, m.request_id with
      | some v, some i =>
        (match lookupEntry t i with
        | some e => if alive e.chan then some (i, e.chan, v) else none
        | none => none)
      | _, _ => none) := by
  cases hv : m.variant with
  | none => simp [processMessage, hv]
  | some v =>
    cases hr : m.request_id with
    | none => simp [processMessage, hv, hr]
    | some i =>
      cases hl : lookupEntry t i with
      | none => simp [processMessage, hv, hr, removeGet, hl]
      | some e =>
        cases ha : alive e.chan with
        | false => simp [processMessage, hv, hr, removeGet, hl, ha]
        | true =>
          cases ho : e.oneshot <;>
            simp [processMessage, hv, hr, removeGet, hl, ha, ho]

/-- The warnings one reader step logs. -/
theorem logs_processMessage (alive : Nat → Bool) (t : Table) (m : FromServer) :
    (processMessage alive t m).logs =
      (match m.variant, m.request_id with
      | some _, some i =>
        if (lookupEntry t i).isSome then [] else [LogEvent.unknownRequestId i]
      | some _, none => []
      | none, _ => [LogEvent.noContent]) := by
  cases hv : m.variant with
  | none => simp [processMessage, hv]
  | some v =>
    cases hr : m.request_id with
    | none => simp [processMessage, hv, hr]
    | some i =>
      cases hl : lookupEntry t i with
      | none => simp [processMessage, hv, hr, removeGet, hl]
      | some e =>
        cases ha : alive e.chan with
        | false => simp [processMessage, hv, hr, removeGet, hl, ha]
        | true =>
          cases ho : e.oneshot <;>
            simp [processMessage, hv, hr, removeGet, hl, ha, ho]

/-! ## Invariant lemmas about the reader loop -/

/-- A successful delivery names a registered entry: `processMessage` delivers
only to the channel of the entry registered for the delivered message's id. -/
theorem delivered_sound (alive : Nat → Bool) (t : Table) (m : FromServer)
    (i : Int) (c v : Nat)
    (h : (processMessage alive t m).delivered = some (i, c, v)) :
    m.request_id = some i ∧ m.variant = some v ∧
      ∃ e, lookupEntry t i = some e ∧ e.chan = c := by
  rw [delivered_processMessage] at h
  cases hv : m.variant with
  | none => rw [hv] at h; simp at h
  | some v' =>
    rw [hv] at h
    cases hr : m.request_id with
    | none => rw [hr] at h; simp at h
    | some j =>
      rw [hr] at h
      simp only [] at h
      cases hl : lookupEntry t j with
      | none => rw [hl] at h; simp at h
      | some e =>
        rw [hl] at h
        simp only [] at h
        cases ha : alive e.chan with
        | false => rw [ha] at h; simp at h
        | true =>
          rw [ha] at h
          simp at h
          obtain ⟨h1, h2, h3⟩ := h
          subst h1; subst h3
          exact ⟨rfl, rfl, e, hl, h2⟩

/-- An id absent from the table stays absent across any single reader step:
the loop only re-inserts an entry it just removed. -/
theorem absent_preserved (alive : Nat → Bool) (t : Table) (m : FromServer)
    (id : Int) (h : lookupEntry t id = none) :
    lookupEntry (processMessage alive t m).table id = none := by
  rw [lookupEntry_processMessage]
  cases hv : m.variant with
  | none => exact h
  | some v =>
    cases hr : m.request_id with
    | none => exact h
    | some j =>
      by_cases hij : id = j
      · subst hij; simp [h]
      · simp [hij, h]

/-- If every entry the table holds for id `i` targets channel `ch`, that stays
true across any reader step. -/
theorem chan_stable_step (alive : Nat → Bool) (t : Table) (m : FromServer)
    (i : Int) (ch : Nat)
    (h : ∀ e, lookupEntry t i = some e → e.chan = ch) :
    ∀ e, lookupEntry (processMessage alive t m).table i = some e →
      e.chan = ch := by
  intro e' he'
  rw [lookupEntry_processMessage] at he'
  cases hv : m.variant with
  | none => rw [hv] at he'; exact h e' he'
  | some v =>
    rw [hv] at he'
    cases hr : m.request_id with
    | none => rw [hr] at he'; exact h e' he'
    | some j =>
      rw [hr] at he'
      simp only [] at he'
      by_cases hij : i = j
      · subst hij
        rw [if_pos rfl] at he'
        cases hl : lookupEntry t i with
        | none => rw [hl] at he'; simp at he'
        | some e =>
          rw [hl] at he'
          simp only [] at he'
          cases hd : alive e.chan && !e.oneshot with
          | false => rw [hd] at he'; simp at he'
          | true =>
            rw [hd] at he'
            simp at he'
            subst he'
            exact h e hl
      · rw [if_neg hij] at he'
        exact h e' he'

/-- Every delivery the loop performs for id `i` goes to the channel that the
table associates with `i`, whatever the arrival order of messages. -/
theorem deliveries_chan (alive : Nat → Bool) (t : Table)
    (events : List RaceOutcome) (i : Int) (ch : Nat)
    (h : ∀ e, lookupEntry t i = some e → e.chan = ch) :
    ∀ c v, (i, c, v) ∈ (runReader alive t events).deliveries → c = ch := by
  induction events generalizing t with
  | nil => intro c v hm; simp [runReader] at hm
  | cons o rest ih =>
    intro c v hm
    cases o with
    | clientDropped => simp [runReader] at hm
    | readError => simp [runReader] at hm
    | message m =>
      simp only [runReader, List.mem_append] at hm
      cases hm with
      | inl hd =>
        cases hdel : (processMessage alive t m).delivered with
        | none => rw [hdel] at hd; simp [Option.toList] at hd
        | some d =>
          rw [hdel] at hd
          simp only [Option.toList, List.mem_singleton] at hd
          obtain ⟨e, he, hc⟩ :=
            (delivered_sound alive t m i c v (hd ▸ hdel)).2.2
          rw [← hc]
          exact h e he
      | inr hrest =>
        exact ih (processMessage alive t m).table
          (chan_stable_step alive t m i ch h) c v hrest

/-- No delivery for an absent id ever happens in a reader-only run. -/
theorem no_delivery_of_absent (alive : Nat → Bool) (t : Table)
    (events : List RaceOutcome) (i : Int)
    (h : lookupEntry t i = none) :
    ∀ c v, (i, c, v) ∉ (runReader alive t events).deliveries := by
  induction events generalizing t with
  | nil => intro c v hm; simp [runReader] at hm
  | cons o rest ih =>
    intro c v hm
    cases o with
    | clientDropped => simp [runReader] at hm
    | readError => simp [runReader] at hm
    | message m =>
      simp only [runReader, List.mem_append] at hm
      cases hm with
      | inl hd =>
        cases hdel : (processMessage alive t m).delivered with
        | none => rw [hdel] at hd; simp [Option.toList] at hd
        | some d =>
          rw [hdel] at hd
          simp only [Option.toList, List.mem_singleton] at hd
          obtain ⟨e, he, _⟩ :=
            (delivered_sound alive t m i c v (hd ▸ hdel)).2.2
          rw [h] at he
          exact Option.noConfusion he
      | inr hrest =>
        exact ih (processMessage alive t m).table
          (absent_preserved alive t m i h) c v hrest

/-- The way the loop ends depends only on the race outcomes, not on the table
or the deliveries: no inbound message terminates the loop. -/
theorem runReader_result (alive : Nat → Bool) (t : Table)
    (events : List RaceOutcome) :
    (runReader alive t events).result = loopResultOf events := by
  induction events generalizing t with
  | nil => rfl
  | cons o rest ih =>
    cases o with
    | clientDropped => rfl
    | readError => rfl
    | message m => exact ih (processMessage alive t m).table

/-! ## Claim theorems -/

/-- C1 (code-bug evidence): when the private receiver of a `request` call is
closed without ever receiving a value, `rx.recv().await` yields `none` and the
source's `.expect("response channel was unexpectedly dropped")` fires: the call
panics (aborts) instead of returning a connection-closed error as the claim
requires. -/
theorem C1_request_panics_on_closed_receiver :
    requestReceive (fun v => some v) none = RequestOutcome.panicked := rfl

/-- C2: with concurrently outstanding requests under distinct ids, every reply
the reader delivers for id `i` reaches exactly the channel registered for `i`
(whatever the arrival order of replies, over any run of the loop); a message
carrying id `i` never changes any other id's entry; and when the registered
receiver is alive, a payload-carrying reply for `i` is in fact delivered to it. -/
theorem C2_reply_routing (alive : Nat → Bool) (t : Table)
    (events : List RaceOutcome) (i : Int) (e : Entry)
    (he : lookupEntry t i = some e) :
    (∀ c v, (i, c, v) ∈ (runReader alive t events).deliveries → c = e.chan) ∧
    (∀ m j, m.request_id = some i → j ≠ i →
      lookupEntry (processMessage alive t m).table j = lookupEntry t j) ∧
    (∀ v, alive e.chan = true →
      (processMessage alive t ⟨some i, some v⟩).delivered =
        some (i, e.chan, v)) := by
  refine ⟨?_, ?_, ?_⟩
  · refine deliveries_chan alive t events i e.chan (fun e' he' => ?_)
    rw [he] at he'
    injection he' with h'
    rw [← h']
  · intro m j hm hj
    rw [lookupEntry_processMessage]
    cases hv : m.variant with
    | none => rfl
    | some v =>
      rw [hm]
      simp only []
      rw [if_neg hj]
  · intro v ha
    simp [delivered_processMessage, he, ha]

/-- Witness for C2 at a concrete scenario: two outstanding requests with ids 0
and 1 (channels 10 and 11), replies arriving out of order. -/
theorem C2_reply_routing_witness :
    lookupEntry [((0 : Int), (⟨10, true⟩ : Entry)), (1, ⟨11, true⟩)] 0 =
      some ⟨10, true⟩ ∧
    ((∀ c v, (0, c, v) ∈
        (runReader (fun _ => true)
          [((0 : Int), (⟨10, true⟩ : Entry)), (1, ⟨11, true⟩)]
          [RaceOutcome.message ⟨some 1, some 5⟩,
           RaceOutcome.message ⟨some 0, some 6⟩]).deliveries → c = 10) ∧
     (∀ m j, m.request_id = some 0 → j ≠ 0 →
       lookupEntry (processMessage (fun _ => true)
         [((0 : Int), (⟨10, true⟩ : Entry)), (1, ⟨11, true⟩)] m).table j =
       lookupEntry [((0 : Int), (⟨10, true⟩ : Entry)), (1, ⟨11, true⟩)] j) ∧
     (∀ v, (fun (_ : Nat) => true) 10 = true →
       (processMessage (fun _ => true)
         [((0 : Int), (⟨10, true⟩ : Entry)), (1, ⟨11, true⟩)]
         ⟨some 0, some v⟩).delivered = some (0, 10, v))) :=
  ⟨by decide,
   C2_reply_routing (fun _ => true)
     [((0 : Int), (⟨10, true⟩ : Entry)), (1, ⟨11, true⟩)]
     [RaceOutcome.message ⟨some 1, some 5⟩, RaceOutcome.message ⟨some 0, some 6⟩]
     0 ⟨10, true⟩ (by decide)⟩

/-- C3: a single-shot entry is gone from the Correlation Table after the reader's
first delivery attempt for its id — whether the delivery succeeded or failed —
and a second inbound message with the same id is then unroutable (logged as
unknown request id). -/
theorem C3_single_shot_removed (alive : Nat → Bool) (t : Table) (id : Int)
    (v v' : Nat) (e : Entry) (he : lookupEntry t id = some e)
    (hone : e.oneshot = true) :
    lookupEntry (processMessage alive t ⟨some id, some v⟩).table id = none ∧
    (processMessage alive (processMessage alive t ⟨some id, some v⟩).table
        ⟨some id, some v'⟩).logs = [LogEvent.unknownRequestId id] := by
  have h1 : lookupEntry (processMessage alive t ⟨some id, some v⟩).table id =
      none := by
    rw [lookupEntry_processMessage]
    simp only []
    rw [if_pos trivial, he]
    simp only []
    rw [hone]
    simp
  refine ⟨h1, ?_⟩
  rw [logs_processMessage]
  simp only []
  rw [h1]
  simp

/-- Witness for C3: single-shot entry for id 0, delivery succeeds, the follow-up
message with id 0 is logged as unroutable. -/
theorem C3_single_shot_removed_witness :
    lookupEntry [((0 : Int), (⟨5, true⟩ : Entry))] 0 = some ⟨5, true⟩ ∧
    (⟨5, true⟩ : Entry).oneshot = true ∧
    (lookupEntry (processMessage (fun _ => true)
        [((0 : Int), (⟨5, true⟩ : Entry))] ⟨some 0, some 1⟩).table 0 = none ∧
     (processMessage (fun _ => true)
        (processMessage (fun _ => true)
          [((0 : Int), (⟨5, true⟩ : Entry))] ⟨some 0, some 1⟩).table
        ⟨some 0, some 2⟩).logs = [LogEvent.unknownRequestId 0]) :=
  ⟨by decide, rfl,
   C3_single_shot_removed (fun _ => true) [((0 : Int), (⟨5, true⟩ : Entry))]
     0 1 2 ⟨5, true⟩ (by decide) rfl⟩

/-- C4: a multi-shot entry survives a successful delivery under the same id
(with the oneshot flag still `false`); a failed delivery (receiver dropped)
removes it permanently, so no later iteration of the reader-only loop ever
delivers for that id again. -/
theorem C4_multi_shot_entry (alive : Nat → Bool) (t : Table) (id : Int)
    (v : Nat) (e : Entry) (rest : List RaceOutcome)
    (he : lookupEntry t id = some e) (hmulti : e.oneshot = false) :
    (alive e.chan = true →
      lookupEntry (processMessage alive t ⟨some id, some v⟩).table id =
        some ⟨e.chan, false⟩) ∧
    (alive e.chan = false →
      lookupEntry (processMessage alive t ⟨some id, some v⟩).table id = none ∧
      ∀ c w, (id, c, w) ∉
        (runReader alive (processMessage alive t ⟨some id, some v⟩).table
          rest).deliveries) := by
  constructor
  · intro ha
    simp [lookupEntry_processMessage, he, hmulti, ha]
  · intro ha
    have habs : lookupEntry
        (processMessage alive t ⟨some id, some v⟩).table id = none := by
      simp [lookupEntry_processMessage, he, ha]
    exact ⟨habs, no_delivery_of_absent alive _ rest id habs⟩

/-- Witness for C4: a subscription entry for id 2 on channel 9; the receiver's
liveness is given by the `alive` predicate `fun c => decide (c = 9)`. -/
theorem C4_multi_shot_entry_witness :
    lookupEntry [((2 : Int), (⟨9, false⟩ : Entry))] 2 = some ⟨9, false⟩ ∧
    (⟨9, false⟩ : Entry).oneshot = false ∧
    (((fun c => decide (c = 9)) (⟨9, false⟩ : Entry).chan = true →
      lookupEntry (processMessage (fun c => decide (c = 9))
        [((2 : Int), (⟨9, false⟩ : Entry))] ⟨some 2, some 4⟩).table 2 =
        some ⟨9, false⟩) ∧
     ((fun c => decide (c = 9)) (⟨9, false⟩ : Entry).chan = false →
      lookupEntry (processMessage (fun c => decide (c = 9))
        [((2 : Int), (⟨9, false⟩ : Entry))] ⟨some 2, some 4⟩).table 2 = none ∧
      ∀ c w, (2, c, w) ∉
        (runReader (fun c => decide (c = 9))
          (processMessage (fun c => decide (c = 9))
            [((2 : Int), (⟨9, false⟩ : Entry))] ⟨some 2, some 4⟩).table
          [RaceOutcome.message ⟨some 2, some 8⟩]).deliveries)) :=
  ⟨by decide, rfl,
   C4_multi_shot_entry (fun c => decide (c = 9))
     [((2 : Int), (⟨9, false⟩ : Entry))] 2 4 ⟨9, false⟩
     [RaceOutcome.message ⟨some 2, some 8⟩] (by decide) rfl⟩

/-- C5: once the race resolves to `ClientDropped` (the shutdown signal fired
because the client handle was dropped), the loop `break`s with `Ok(())` at that
very iteration: no further inbound message is read (the remaining outcomes are
ignored), nothing more is delivered or logged, and the remaining entries are
abandoned — with the client gone and the loop ended, both owners of the table
are gone, so every holder observes a closed receiver. -/
theorem C5_shutdown_terminates (alive : Nat → Bool) (t : Table)
    (rest : List RaceOutcome) :
    runReader alive t (RaceOutcome.clientDropped :: rest) =
      { table := t, result := LoopResult.ok, logs := [], deliveries := [] } ∧
    ∀ id, receiverClosed false
      (runReader alive t (RaceOutcome.clientDropped :: rest)) id = true := by
  exact ⟨rfl, fun id => rfl⟩

/-- C6 (code-bug evidence): a transport read error ends the loop with an error,
but the pending single-shot entry for id 0 is still in the table afterwards;
since the client handle still holds the table (and with it the entry's sender),
the pending caller's receiver is not closed — the caller hangs instead of
observing connection loss. -/
theorem C6_transport_error_leaves_receivers_open :
    (runReader (fun _ => true) [((0 : Int), (⟨7, true⟩ : Entry))]
      [RaceOutcome.readError]).result = LoopResult.err ∧
    lookupEntry (runReader (fun _ => true) [((0 : Int), (⟨7, true⟩ : Entry))]
      [RaceOutcome.readError]).table 0 = some ⟨7, true⟩ ∧
    receiverClosed true (runReader (fun _ => true)
      [((0 : Int), (⟨7, true⟩ : Entry))] [RaceOutcome.readError]) 0 = false := by
  exact ⟨rfl, rfl, rfl⟩

/-- C7: a payload-carrying message whose id matches no entry is logged as an
unknown request id and dropped: the table is unchanged, nothing is delivered to
any caller, and the loop's fate is decided solely by the remaining race
outcomes (the message never terminates or crashes the loop). -/
theorem C7_unknown_id_discard (alive : Nat → Bool) (t : Table)
    (rest : List RaceOutcome) (id : Int) (v : Nat)
    (h : lookupEntry t id = none) :
    (processMessage alive t ⟨some id, some v⟩).logs =
      [LogEvent.unknownRequestId id] ∧
    (processMessage alive t ⟨some id, some v⟩).delivered = none ∧
    (processMessage alive t ⟨some id, some v⟩).table = t ∧
    (runReader alive t (RaceOutcome.message ⟨some id, some v⟩ :: rest)).result =
      loopResultOf rest := by
  refine ⟨?_, ?_, ?_, (runReader_result alive t _).trans rfl⟩
  · simp [logs_processMessage, h]
  · simp [delivered_processMessage, h]
  · have h2 : (processMessage alive t ⟨some id, some v⟩).table =
        eraseEntry t id := by
      simp [processMessage, removeGet, h]
    rw [h2]
    exact eraseEntry_of_lookup_none t id h

/-- Witness for C7: a reply for id 999 arrives while only id 0 is outstanding. -/
theorem C7_unknown_id_discard_witness :
    lookupEntry [((0 : Int), (⟨3, true⟩ : Entry))] 999 = none ∧
    ((processMessage (fun _ => true) [((0 : Int), (⟨3, true⟩ : Entry))]
        ⟨some 999, some 1⟩).logs = [LogEvent.unknownRequestId 999] ∧
     (processMessage (fun _ => true) [((0 : Int), (⟨3, true⟩ : Entry))]
        ⟨some 999, some 1⟩).delivered = none ∧
     (processMessage (fun _ => true) [((0 : Int), (⟨3, true⟩ : Entry))]
        ⟨some 999, some 1⟩).table = [((0 : Int), (⟨3, true⟩ : Entry))] ∧
     (runReader (fun _ => true) [((0 : Int), (⟨3, true⟩ : Entry))]
        [RaceOutcome.message ⟨some 999, some 1⟩]).result = loopResultOf []) :=
  ⟨by decide,
   C7_unknown_id_discard (fun _ => true) [((0 : Int), (⟨3, true⟩ : Entry))]
     [] 999 1 (by decide)⟩

/-- C8: when the reply for a single-shot request is delivered but its payload
does not decode to the expected response shape, the reader has already removed
the entry (delivery succeeded, oneshot contract honoured), and the caller's
`request` fails with the protocol-mismatch error
(`"received response of the wrong t"`). -/
theorem C8_mismatch_after_removal (alive : Nat → Bool) (t : Table) (id : Int)
    (v : Nat) (fromVariant : Nat → Option Nat) (e : Entry)
    (he : lookupEntry t id = some e) (hone : e.oneshot = true)
    (halive : alive e.chan = true) (hdec : fromVariant v = none) :
    (processMessage alive t ⟨some id, some v⟩).delivered =
      some (id, e.chan, v) ∧
    lookupEntry (processMessage alive t ⟨some id, some v⟩).table id = none ∧
    requestReceive fromVariant (some v) = RequestOutcome.protocolMismatch := by
  refine ⟨?_, ?_, ?_⟩
  · simp [delivered_processMessage, he, halive]
  · simp [lookupEntry_processMessage, he, hone]
  · simp [requestReceive, hdec]

/-- Witness for C8: a request on id 0 (channel 4) receives payload 7, which the
expected response shape rejects. -/
theorem C8_mismatch_after_removal_witness :
    lookupEntry [((0 : Int), (⟨4, true⟩ : Entry))] 0 = some ⟨4, true⟩ ∧
    (⟨4, true⟩ : Entry).oneshot = true ∧
    (fun _ : Nat => true) (⟨4, true⟩ : Entry).chan = true ∧
    (fun _ : Nat => (none : Option Nat)) 7 = none ∧
    ((processMessage (fun _ => true) [((0 : Int), (⟨4, true⟩ : Entry))]
        ⟨some 0, some 7⟩).delivered = some (0, 4, 7) ∧
     lookupEntry (processMessage (fun _ => true)
        [((0 : Int), (⟨4, true⟩ : Entry))] ⟨some 0, some 7⟩).table 0 = none ∧
     requestReceive (fun _ => none) (some 7) =
       RequestOutcome.protocolMismatch) :=
  ⟨by decide, rfl, rfl, rfl,
   C8_mismatch_after_removal (fun _ => true)
     [((0 : Int), (⟨4, true⟩ : Entry))] 0 7 (fun _ => none) ⟨4, true⟩
     (by decide) rfl rfl rfl⟩

/-- C9 counterexample: the message `{request_id: none, variant: some 5}` lacks a
request id, yet the reader logs nothing for it (the claim says every such
message is logged); it is dropped silently. -/
theorem C9_no_id_logs_nothing :
    (processMessage (fun _ => true) [] ⟨none, some 5⟩).logs = [] ∧
    (processMessage (fun _ => true) [] ⟨none, some 5⟩).delivered = none := by
  exact ⟨rfl, rfl⟩

/-- C9 (amended): a message lacking a payload or lacking a request id is dropped
without being delivered anywhere and the reader continues; a warning is logged
only when the payload is absent — a message that has a payload but no
request id is dropped silently, with no log. -/
theorem C9_undeliverable_dropped (alive : Nat → Bool) (t : Table)
    (rest : List RaceOutcome) (m : FromServer)
    (h : m.request_id = none ∨ m.variant = none) :
    (processMessage alive t m).table = t ∧
    (processMessage alive t m).delivered = none ∧
    (processMessage alive t m).logs =
      (if m.variant = none then [LogEvent.noContent] else []) ∧
    (runReader alive t (RaceOutcome.message m :: rest)).result =
      loopResultOf rest := by
  refine ⟨?_, ?_, ?_, (runReader_result alive t _).trans rfl⟩ <;>
  · cases hv : m.variant with
    | none => simp [processMessage, hv]
    | some v =>
      cases hr : m.request_id with
      | none => simp [processMessage, hv, hr]
      | some i =>
        cases h with
        | inl h0 => rw [h0] at hr; exact Option.noConfusion hr
        | inr h0 => rw [h0] at hv; exact Option.noConfusion hv

/-- Witness for C9 (amended) at the counterexample's input: payload present,
request id absent — dropped with no log, loop unaffected. -/
theorem C9_undeliverable_dropped_witness :
    ((none : Option Int) = none ∨ (some 5 : Option Nat) = none) ∧
    ((processMessage (fun _ => true) [((3 : Int), (⟨1, true⟩ : Entry))]
        ⟨none, some 5⟩).table = [((3 : Int), (⟨1, true⟩ : Entry))] ∧
     (processMessage (fun _ => true) [((3 : Int), (⟨1, true⟩ : Entry))]
        ⟨none, some 5⟩).delivered = none ∧
     (processMessage (fun _ => true) [((3 : Int), (⟨1, true⟩ : Entry))]
        ⟨none, some 5⟩).logs =
       (if (some 5 : Option Nat) = none then [LogEvent.noContent] else []) ∧
     (runReader (fun _ => true) [((3 : Int), (⟨1, true⟩ : Entry))]
        [RaceOutcome.message ⟨none, some 5⟩]).result = loopResultOf []) :=
  ⟨Or.inl rfl,
   C9_undeliverable_dropped (fun _ => true)
     [((3 : Int), (⟨1, true⟩ : Entry))] [] ⟨none, some 5⟩ (Or.inl rfl)⟩

/-- C10 (implicit): during a multi-shot delivery the entry is absent from the
table — the reader removed it before the awaited `tx.send` — and on success the
final table is exactly the mid-delivery table with the entry re-inserted under
the same id with the oneshot flag (still) `false`. -/
theorem C10_multi_shot_reinserted (alive : Nat → Bool) (t : Table) (id : Int)
    (v : Nat) (e : Entry) (he : lookupEntry t id = some e)
    (hmulti : e.oneshot = false) (halive : alive e.chan = true) :
    lookupEntry (midDeliveryTable t id) id = none ∧
    (processMessage alive t ⟨some id, some v⟩).table =
      insertEntry (midDeliveryTable t id) id ⟨e.chan, false⟩ := by
  refine ⟨?_, ?_⟩
  · simp [midDeliveryTable, removeGet, lookupEntry_eraseEntry]
  · simp [processMessage, removeGet, he, halive, hmulti, midDeliveryTable]

/-- Witness for C10: a subscription entry for id 1 on channel 6 receiving
event 3. -/
theorem C10_multi_shot_reinserted_witness :
    lookupEntry [((1 : Int), (⟨6, false⟩ : Entry))] 1 = some ⟨6, false⟩ ∧
    (⟨6, false⟩ : Entry).oneshot = false ∧
    (fun _ : Nat => true) (⟨6, false⟩ : Entry).chan = true ∧
    (lookupEntry (midDeliveryTable [((1 : Int), (⟨6, false⟩ : Entry))] 1) 1 =
      none ∧
     (processMessage (fun _ => true) [((1 : Int), (⟨6, false⟩ : Entry))]
        ⟨some 1, some 3⟩).table =
       insertEntry (midDeliveryTable [((1 : Int), (⟨6, false⟩ : Entry))] 1) 1
         ⟨6, false⟩) :=
  ⟨by decide, rfl, rfl,
   C10_multi_shot_reinserted (fun _ => true)
     [((1 : Int), (⟨6, false⟩ : Entry))] 1 3 ⟨6, false⟩ (by decide) rfl rfl⟩
